import Mathlib

/-
  Shallow embedding of the CHILD_SA creation task of an IKEv2 daemon
  (src/libcharon/sa/ikev2/tasks/child_create.c), together with theorems
  checking the natural-language specification against the code.

  Chunks (chunk_t) are byte lists, machine integers are Nat, statuses and
  enum types are inductive types mirroring the C enums.  Collaborators
  (kernel SPI/SA installers, the keymat) are oracles passed in as data;
  the calls made to them are recorded in traces so that call-order and
  call-argument properties can be stated.
-/

namespace ChildCreate

/-- Byte sequences standing for chunk_t values; the empty list stands for
an empty chunk (null pointer, zero length). -/
abbrev Chunk := List Nat

/-- status_t values returned by task operations and helpers. -/
inductive Status where
  | SUCCESS
  | FAILED
  | NOT_FOUND
  | NEED_MORE
  | DESTROY_ME
  | NOT_SUPPORTED
  | INVALID_STATE
  deriving DecidableEq, Repr

/-- child_sa_state_t lifecycle states of a CHILD_SA. -/
inductive ChildState where
  | CHILD_CREATED
  | CHILD_INSTALLING
  | CHILD_INSTALLED
  | CHILD_RETRYING
  | CHILD_DELETING
  deriving DecidableEq, Repr

/-- ipcomp_transform_t values. -/
inductive IpcompTransform where
  | IPCOMP_NONE
  | IPCOMP_OUI
  | IPCOMP_DEFLATE
  | IPCOMP_LZS
  | IPCOMP_LZJH
  deriving DecidableEq, Repr

/-- Exchange types as used by the task. -/
inductive Exchange where
  | IKE_SA_INIT
  | IKE_AUTH
  | CREATE_CHILD_SA
  | IKE_FOLLOWUP_KE
  | INFORMATIONAL
  | EXCHANGE_TYPE_UNDEFINED
  deriving DecidableEq, Repr

/-- Notify types consumed or emitted by the task.  Types not named in the
code of the task are carried by their numeric code. -/
inductive NotifyType where
  | INVALID_SYNTAX
  | NO_PROPOSAL_CHOSEN
  | INVALID_KE_PAYLOAD
  | SINGLE_PAIR_REQUIRED
  | NO_ADDITIONAL_SAS
  | INTERNAL_ADDRESS_FAILURE
  | FAILED_CP_REQUIRED
  | TS_UNACCEPTABLE
  | INVALID_SELECTORS
  | TEMPORARY_FAILURE
  | STATE_NOT_FOUND
  | ADDITIONAL_KEY_EXCHANGE
  | otherNotify (code : Nat)
  deriving DecidableEq, Repr

/-- IKEv2 numeric codes of the notify types (RFC 7296 and RFC 9370);
the task only compares codes against 16383 in its default branch. -/
def NotifyType.code : NotifyType → Nat
  | .INVALID_SYNTAX => 7
  | .NO_PROPOSAL_CHOSEN => 14
  | .INVALID_KE_PAYLOAD => 17
  | .SINGLE_PAIR_REQUIRED => 34
  | .NO_ADDITIONAL_SAS => 35
  | .INTERNAL_ADDRESS_FAILURE => 36
  | .FAILED_CP_REQUIRED => 37
  | .TS_UNACCEPTABLE => 38
  | .INVALID_SELECTORS => 39
  | .TEMPORARY_FAILURE => 43
  | .STATE_NOT_FOUND => 47
  | .ADDITIONAL_KEY_EXCHANGE => 16441
  | .otherNotify c => c

/-- A notify payload: its type and its notification data. -/
structure Notify where
  ntype : NotifyType
  data : Chunk
  deriving DecidableEq, Repr

/-! ### get_lower_nonce (child_create.c lines 2541-2553) -/

/-- memcmp over the first n bytes of two byte sequences: the first
differing byte decides, equality over all n bytes gives eq.  The callers
below only invoke it with n at most the length of both lists. -/
def memcmp : Chunk → Chunk → Nat → Ordering
  | _, _, 0 => Ordering.eq
  | x :: xs, y :: ys, Nat.succ n =>
      if x < y then Ordering.lt
      else if y < x then Ordering.gt
      else memcmp xs ys n
  | _, _, Nat.succ _ => Ordering.eq

/-- get_lower_nonce: compares my_nonce and other_nonce over the shorter
length with memcmp and returns my_nonce exactly when that comparison is
strictly below zero, otherwise other_nonce. -/
def get_lower_nonce (my_nonce other_nonce : Chunk) : Chunk :=
  if memcmp my_nonce other_nonce (min my_nonce.length other_nonce.length) = Ordering.lt then
    my_nonce
  else
    other_nonce

/-- Lexicographic strict order on byte sequences, used to state which
nonce is the lower one.  Defined independently of memcmp. -/
def lexLt : Chunk → Chunk → Bool
  | _, [] => false
  | [], _ :: _ => true
  | x :: xs, y :: ys => x < y || (x == y && lexLt xs ys)

/-! ### IPComp symmetry check in process_i (child_create.c lines 2411-2430) -/

/-- Outcome of the IPComp consistency check an initiator performs on a
response: fail the CHILD_SA, silently disable IPComp and continue, or
keep the negotiated transform. -/
inductive IpcompCheck where
  | fail
  | disabled
  | keep
  deriving DecidableEq, Repr

/-- The IPComp check of process_i over the transform we proposed (ipcomp,
IPCOMP_NONE when we sent no IPCOMP_SUPPORTED notify) and the transform
recorded from the peer (ipcomp_received, IPCOMP_NONE when the peer sent
none that we accepted). -/
def process_i_ipcomp (ipcomp ipcomp_received : IpcompTransform) : IpcompCheck :=
  if ipcomp = IpcompTransform.IPCOMP_NONE ∧ ipcomp_received ≠ IpcompTransform.IPCOMP_NONE then
    IpcompCheck.fail
  else if ipcomp ≠ IpcompTransform.IPCOMP_NONE ∧ ipcomp_received = IpcompTransform.IPCOMP_NONE then
    IpcompCheck.disabled
  else if ipcomp ≠ IpcompTransform.IPCOMP_NONE ∧ ipcomp ≠ ipcomp_received then
    IpcompCheck.fail
  else
    IpcompCheck.keep

/-! ### Task construction, set_config and get_config
    (child_create.c lines 2528-2539 and 2671-2723) -/

/-- The configuration-related state of a child_create task; configs are
abstracted to identifiers. -/
structure ChildCreateTask where
  initiator : Bool
  config : Option Nat
  deriving DecidableEq, Repr

/-- child_create_create: a task built with a config becomes the initiator
variant, one built without becomes the responder variant. -/
def child_create_create (config : Option Nat) : ChildCreateTask :=
  { initiator := config.isSome, config := config }

/-- set_config: installs a configuration, replacing any previous one. -/
def set_config (t : ChildCreateTask) (cfg : Nat) : ChildCreateTask :=
  { t with config := some cfg }

/-- get_config: returns the configuration only for the initiator variant. -/
def get_config (t : ChildCreateTask) : Option Nat :=
  if t.initiator then t.config else none

/-! ### Proposals and the key-exchange plan
    (child_create.c lines 1035-1058 and 1149-1204) -/

/-- transform_type_t code of KEY_EXCHANGE_METHOD. -/
def KEY_EXCHANGE_METHOD : Nat := 4

/-- transform_type_t code of ADDITIONAL_KEY_EXCHANGE_1; the further
additional key exchanges follow consecutively up to ADDITIONAL_KEY_EXCHANGE_7. -/
def ADDITIONAL_KEY_EXCHANGE_1 : Nat := 6

/-- A proposal: protocol, SPI and an ordered list of (transform type,
method) transforms. -/
structure Proposal where
  protocol : Nat
  spi : Nat
  transforms : List (Nat × Nat)
  deriving DecidableEq, Repr

/-- proposal_t.get_algorithm: the first transform of the given type. -/
def Proposal.get_algorithm (p : Proposal) (t : Nat) : Option Nat :=
  (p.transforms.find? (fun x => x.1 == t)).map (fun x => x.2)

/-- proposal_t.has_transform: whether a transform of the given type and
method is contained in the proposal. -/
def Proposal.has_transform (p : Proposal) (t m : Nat) : Bool :=
  p.transforms.any (fun x => x.1 == t && x.2 == m)

/-- One filled slot of the key_exchanges array: transform type, method,
and whether the exchange has completed. -/
structure KeSlot where
  type : Nat
  method : Nat
  done : Bool
  deriving DecidableEq, Repr

/-- determine_key_exchanges: collect the key exchanges from the selected
proposal.  Slot 0 is the KEY_EXCHANGE_METHOD transform (no slot at all
without it); the loop then walks ADDITIONAL_KEY_EXCHANGE_1..7 in type
order and fills the next slot for each transform that is present.  The
list holds the filled slots; the rest of the fixed-size array stays
zeroed. -/
def determine_key_exchanges (p : Proposal) : List KeSlot :=
  match p.get_algorithm KEY_EXCHANGE_METHOD with
  | none => []
  | some alg =>
      { type := KEY_EXCHANGE_METHOD, method := alg, done := false } ::
        (List.range 7).filterMap (fun j =>
          (p.get_algorithm (ADDITIONAL_KEY_EXCHANGE_1 + j)).map
            (fun a => { type := ADDITIONAL_KEY_EXCHANGE_1 + j, method := a, done := false }))

/-- Result of check_ke_method: either the method is acceptable (possibly
after discarding the KE payload because the selected proposal has no key
exchange at all), or it is rejected with the method the proposal expects. -/
inductive KeCheck where
  | ok (cleared : Bool)
  | mismatch (req : Nat)
  deriving DecidableEq, Repr

/-- check_ke_method: the method sent by the peer is fine if the selected
proposal contains it; otherwise, if the proposal has some KEY_EXCHANGE_METHOD
transform, that expected method is reported back; otherwise the KE payload
is ignored and the key-exchange state cleared. -/
def check_ke_method (p : Proposal) (ke_method : Nat) : KeCheck :=
  if p.has_transform KEY_EXCHANGE_METHOD ke_method then
    KeCheck.ok false
  else
    match p.get_algorithm KEY_EXCHANGE_METHOD with
    | some alg => KeCheck.mismatch alg
    | none => KeCheck.ok true

/-- htons on a 16-bit value: the two bytes in network (big-endian) order. -/
def htons16 (x : Nat) : Chunk := [x / 256 % 256, x % 256]

/-- check_ke_method_r: responder-side wrapper.  On a method mismatch it
adds an INVALID_KE_PAYLOAD notify carrying the expected method in network
order and reports failure; if a key exchange is required but no key
exchange object could be created it adds NO_PROPOSAL_CHOSEN; otherwise it
succeeds.  ke_present tells whether the key exchange object exists
(this->ke); clearing by check_ke_method discards it. -/
def check_ke_method_r (p : Proposal) (ke_method : Nat) (ke_present : Bool) :
    Bool × List (NotifyType × Chunk) :=
  match check_ke_method p ke_method with
  | KeCheck.mismatch alg => (false, [(NotifyType.INVALID_KE_PAYLOAD, htons16 alg)])
  | KeCheck.ok cleared =>
      let ke_method1 := if cleared then 0 else ke_method
      let ke_present1 := if cleared then false else ke_present
      if ke_method1 ≠ 0 ∧ ke_present1 = false then
        (false, [(NotifyType.NO_PROPOSAL_CHOSEN, [])])
      else
        (true, [])

/-- The call site of check_ke_method_r in build_r (lines 2083-2086): when
the check reports failure the responder ends the exchange with SUCCESS
(the peer will retry); otherwise build_r continues (no status yet). -/
def build_r_ke_step (p : Proposal) (ke_method : Nat) (ke_present : Bool) :
    Option Status × List (NotifyType × Chunk) :=
  let r := check_ke_method_r p ke_method ke_present
  if r.1 then (none, r.2) else (some Status.SUCCESS, r.2)

/-! ### install_child_sa (child_create.c lines 611-795) -/

/-- The four keying chunks produced by keymat_v2_t.derive_child_keys. -/
structure DerivedKeys where
  encr_i : Chunk
  integ_i : Chunk
  encr_r : Chunk
  integ_r : Chunk
  deriving DecidableEq, Repr

/-- A call made by install_child_sa to the keymat or to the CHILD_SA /
kernel interface, with the arguments relevant here. -/
inductive KernelOp where
  | deriveKeys (nonce_i nonce_r : Chunk)
  | installSA (encr integ : Chunk) (spi cpi : Nat) (initiator inbound tfcv3 : Bool)
  | registerOutbound (encr integ : Chunk) (spi cpi : Nat) (initiator tfcv3 : Bool)
  | installPolicies
  deriving DecidableEq, Repr

/-- Whether a recorded call installs or registers the outbound SA. -/
def KernelOp.isOutbound : KernelOp → Bool
  | KernelOp.installSA _ _ _ _ _ inbound _ => !inbound
  | KernelOp.registerOutbound _ _ _ _ _ _ => true
  | _ => false

/-- The slice of the task state that install_child_sa reads.  The
post-narrow hook on the responder TS copies is abstracted to whether they
came back empty. -/
structure InstallSt where
  initiator : Bool
  rekey : Bool
  tfcv3 : Bool
  my_nonce : Chunk
  other_nonce : Chunk
  my_spi : Nat
  other_spi : Nat
  my_cpi : Nat
  other_cpi : Nat
  ipcomp : IpcompTransform
  post_hook_ts_empty : Bool
  deriving DecidableEq, Repr

/-- Oracle for the collaborators: the result of derive_child_keys, of the
inbound install call, of the outbound install / register_outbound call,
and of install_policies. -/
structure Kernel where
  derived : Option DerivedKeys
  install_in : Status
  install_out : Status
  policies : Status
  deriving DecidableEq, Repr

/-- Result of install_child_sa: the returned status, the trace of keymat
and kernel calls in order, and whether the CHILD_SA ended up established. -/
structure InstallResult where
  status : Status
  ops : List KernelOp
  established : Bool
  deriving DecidableEq, Repr

/-- install_child_sa: picks nonce_i and nonce_r by role, bails out with
NOT_FOUND when the responder post-narrow hook emptied the traffic
selectors, zeroes the CPIs unless both sides have one and IPComp is on,
derives the child keys, installs the inbound SA, installs (or, during a
rekeying, registers) the outbound SA, and finally installs the policies.
Both install statuses start out FAILED and are only assigned when
derive_child_keys succeeds; the overall status is FAILED when either SA
install failed, NOT_FOUND when the policy install failed, and SUCCESS
otherwise, in which case the CHILD_SA is established. -/
def install_child_sa (st : InstallSt) (k : Kernel) : InstallResult :=
  let nonce_i := if st.initiator then st.my_nonce else st.other_nonce
  let nonce_r := if st.initiator then st.other_nonce else st.my_nonce
  if !st.initiator && st.post_hook_ts_empty then
    { status := Status.NOT_FOUND, ops := [], established := false }
  else
    let clear_cpis := st.my_cpi = 0 ∨ st.other_cpi = 0 ∨ st.ipcomp = IpcompTransform.IPCOMP_NONE
    let my_cpi := if clear_cpis then 0 else st.my_cpi
    let other_cpi := if clear_cpis then 0 else st.other_cpi
    match k.derived with
    | none =>
        { status := Status.FAILED, ops := [KernelOp.deriveKeys nonce_i nonce_r],
          established := false }
    | some keys =>
        let op_i :=
          if st.initiator then
            KernelOp.installSA keys.encr_r keys.integ_r st.my_spi my_cpi
              st.initiator true st.tfcv3
          else
            KernelOp.installSA keys.encr_i keys.integ_i st.my_spi my_cpi
              st.initiator true st.tfcv3
        let op_o :=
          if st.rekey then
            if st.initiator then
              KernelOp.registerOutbound keys.encr_i keys.integ_i st.other_spi other_cpi
                st.initiator st.tfcv3
            else
              KernelOp.registerOutbound keys.encr_r keys.integ_r st.other_spi other_cpi
                st.initiator st.tfcv3
          else
            if st.initiator then
              KernelOp.installSA keys.encr_i keys.integ_i st.other_spi other_cpi
                st.initiator false st.tfcv3
            else
              KernelOp.installSA keys.encr_r keys.integ_r st.other_spi other_cpi
                st.initiator false st.tfcv3
        let ops := [KernelOp.deriveKeys nonce_i nonce_r, op_i, op_o]
        if k.install_in ≠ Status.SUCCESS ∨ k.install_out ≠ Status.SUCCESS then
          { status := Status.FAILED, ops := ops, established := false }
        else if k.policies ≠ Status.SUCCESS then
          { status := Status.NOT_FOUND, ops := ops ++ [KernelOp.installPolicies],
            established := false }
        else
          { status := Status.SUCCESS, ops := ops ++ [KernelOp.installPolicies],
            established := true }

/-- The nonce of whichever peer initiated the CHILD_SA negotiation. -/
def initiator_nonce (st : InstallSt) : Chunk :=
  if st.initiator then st.my_nonce else st.other_nonce

/-- The nonce of whichever peer responded. -/
def responder_nonce (st : InstallSt) : Chunk :=
  if st.initiator then st.other_nonce else st.my_nonce

/-- The encryption key derived for traffic the peer sends to us. -/
def DerivedKeys.peer_encr (keys : DerivedKeys) (initiator : Bool) : Chunk :=
  if initiator then keys.encr_r else keys.encr_i

/-- The integrity key derived for traffic the peer sends to us. -/
def DerivedKeys.peer_integ (keys : DerivedKeys) (initiator : Bool) : Chunk :=
  if initiator then keys.integ_r else keys.integ_i

/-- The encryption key derived for traffic we send to the peer. -/
def DerivedKeys.own_encr (keys : DerivedKeys) (initiator : Bool) : Chunk :=
  if initiator then keys.encr_i else keys.encr_r

/-- The integrity key derived for traffic we send to the peer. -/
def DerivedKeys.own_integ (keys : DerivedKeys) (initiator : Bool) : Chunk :=
  if initiator then keys.integ_i else keys.integ_r

/-- The CPI values actually passed to the kernel, after the zeroing step. -/
def effective_my_cpi (st : InstallSt) : Nat :=
  if st.my_cpi = 0 ∨ st.other_cpi = 0 ∨ st.ipcomp = IpcompTransform.IPCOMP_NONE then 0
  else st.my_cpi

/-- The peer CPI value actually passed to the kernel, after the zeroing step. -/
def effective_other_cpi (st : InstallSt) : Nat :=
  if st.my_cpi = 0 ∨ st.other_cpi = 0 ∨ st.ipcomp = IpcompTransform.IPCOMP_NONE then 0
  else st.other_cpi

/-! ### Duplicate detection (child_create.c lines 1296-1353 and 1516-1524) -/

/-- The attributes of a child_sa_t that child_sa_equals and
check_for_duplicate compare; configs are abstracted to identifiers and
security labels to optional byte strings. -/
structure ChildSaAttrs where
  cfg : Nat
  reqid : Nat
  mark_in : Nat
  mark_out : Nat
  if_id_in : Nat
  if_id_out : Nat
  label : Option Chunk
  state : ChildState
  deriving DecidableEq, Repr

/-- sec_labels_equal: two labels are equal when both are absent or both
present with the same content. -/
def sec_labels_equal (a b : Option Chunk) : Bool := a == b

/-- child_sa_equals: equal configs, reqids that are only compared when
both are static (non-zero), equal marks, equal interface IDs and equal
labels. -/
def child_sa_equals (a b : ChildSaAttrs) : Bool :=
  a.cfg == b.cfg &&
  (a.reqid == 0 || b.reqid == 0 || a.reqid == b.reqid) &&
  a.mark_in == b.mark_in &&
  a.mark_out == b.mark_out &&
  a.if_id_in == b.if_id_in &&
  a.if_id_out == b.if_id_out &&
  sec_labels_equal a.label b.label

/-- check_for_duplicate: whether the IKE_SA already has an INSTALLED
CHILD_SA equal to the one being initiated. -/
def check_for_duplicate (this_sa : ChildSaAttrs) (existing : List ChildSaAttrs) : Bool :=
  existing.any (fun c => c.state == ChildState.CHILD_INSTALLED && child_sa_equals c this_sa)

/-- The guard in build_i after the CHILD_SA object is created: on a
non-rekey CREATE_CHILD_SA first round, a generic-only label or an
existing duplicate makes the build set the exchange type to undefined
and return SUCCESS, suppressing the wire message. -/
def build_i_duplicate_guard (rekey : Bool) (ex : Exchange)
    (generic_label dup : Bool) : Option (Exchange × Status) :=
  if !rekey && ex == Exchange.CREATE_CHILD_SA && (generic_label || dup) then
    some (Exchange.EXCHANGE_TYPE_UNDEFINED, Status.SUCCESS)
  else
    none

/-- The duplicate criterion exactly as the specification words it:
INSTALLED state, equal config, marks, interface IDs and labels, and
either both reqids zero or the reqids equal. -/
def spec_duplicate_criterion (c t : ChildSaAttrs) : Bool :=
  c.state == ChildState.CHILD_INSTALLED &&
  c.cfg == t.cfg &&
  c.mark_in == t.mark_in &&
  c.mark_out == t.mark_out &&
  c.if_id_in == t.if_id_in &&
  c.if_id_out == t.if_id_out &&
  sec_labels_equal c.label t.label &&
  ((c.reqid == 0 && t.reqid == 0) || c.reqid == t.reqid)

/-! ### The error-notify scan of process_i (child_create.c lines 2262-2387) -/

/-- Externally visible actions performed while scanning the notifies of a
response: the failure handling of a lost CHILD_SA, scheduling the delayed
retry task, setting the CHILD_SA state, and migrating the task back into
the queue. -/
inductive Action where
  | childSaFailed
  | scheduleRetry
  | setChildState (s : ChildState)
  | migrate
  deriving DecidableEq, Repr

/-- The slice of the task state the error-notify scan reads and writes. -/
structure TaskSt where
  rekey : Bool
  retry : Bool
  aborted : Bool
  ke_method : Nat
  child_state : Option ChildState
  deriving DecidableEq, Repr

/-- handle_child_sa_failure: does nothing when the task was aborted,
otherwise closes the IKE_SA or raises the keep alert (both summarized as
one action). -/
def handle_child_sa_failure (st : TaskSt) : List Action :=
  if st.aborted then [] else [Action.childSaFailed]

/-- The parts of task_t.migrate visible on the modelled state: the
CHILD_SA object is destroyed and ke_method is reset unless the task is
rekeying or retrying. -/
def migrate_task (st : TaskSt) : TaskSt :=
  { st with
      child_state := none,
      ke_method := if !st.rekey && !st.retry then 0 else st.ke_method }

/-- untoh16: read an unsigned 16-bit value in network byte order from the
start of a chunk. -/
def untoh16 (c : Chunk) : Nat :=
  match c with
  | b0 :: b1 :: _ => b0 % 256 * 256 + b1 % 256
  | _ => 0

/-- Handling of one notify payload in the error scan of process_i.
Returns the new task state, the actions taken, and some status when the
scan returns early from process_i. -/
def process_i_notify (ex : Exchange) (st : TaskSt) (n : Notify) :
    TaskSt × List Action × Option Status :=
  match n.ntype with
  | NotifyType.NO_PROPOSAL_CHOSEN => (st, handle_child_sa_failure st, some Status.SUCCESS)
  | NotifyType.SINGLE_PAIR_REQUIRED => (st, handle_child_sa_failure st, some Status.SUCCESS)
  | NotifyType.NO_ADDITIONAL_SAS => (st, handle_child_sa_failure st, some Status.SUCCESS)
  | NotifyType.INTERNAL_ADDRESS_FAILURE => (st, handle_child_sa_failure st, some Status.SUCCESS)
  | NotifyType.FAILED_CP_REQUIRED => (st, handle_child_sa_failure st, some Status.SUCCESS)
  | NotifyType.TS_UNACCEPTABLE => (st, handle_child_sa_failure st, some Status.SUCCESS)
  | NotifyType.INVALID_SELECTORS => (st, handle_child_sa_failure st, some Status.SUCCESS)
  | NotifyType.TEMPORARY_FAILURE =>
      (st, if !st.rekey && !st.aborted then [Action.scheduleRetry] else [],
       some Status.SUCCESS)
  | NotifyType.INVALID_KE_PAYLOAD =>
      if st.aborted then
        (st, [], some Status.SUCCESS)
      else
        let alg := if n.data.length = 2 then untoh16 n.data else 0
        if st.retry then
          (st, handle_child_sa_failure st, some Status.SUCCESS)
        else
          let st1 := { st with
                        retry := true, ke_method := alg,
                        child_state := some ChildState.CHILD_RETRYING }
          (migrate_task st1,
           [Action.setChildState ChildState.CHILD_RETRYING, Action.migrate],
           some Status.NEED_MORE)
  | _ =>
      if ex = Exchange.CREATE_CHILD_SA then
        if n.ntype.code ≤ 16383 then (st, [], some Status.SUCCESS)
        else (st, [], none)
      else
        (st, [], none)

/-- The scan over all notify payloads of the response, stopping at the
first notify whose handling returns a status. -/
def scan_notifies (ex : Exchange) : TaskSt → List Notify → TaskSt × List Action × Option Status
  | st, [] => (st, [], none)
  | st, n :: rest =>
      match process_i_notify ex st n with
      | (st1, acts, some s) => (st1, acts, some s)
      | (st1, acts, none) =>
          let r := scan_notifies ex st1 rest
          (r.1, acts ++ r.2.1, r.2.2)

/-! ### Responder multi-KE rounds and the link token
    (child_create.c lines 1060-1094, 1607-1663, 1864-1965) -/

/-- additional_key_exchange_required: whether an unfinished filled slot
remains from ke_index on. -/
def additional_key_exchange_required (plan : List KeSlot) (ke_index : Nat) : Bool :=
  (plan.drop ke_index).any (fun s => s.type != 0 && !s.done)

/-- Mark the slot at the given index done. -/
def mark_done (plan : List KeSlot) (i : Nat) : List KeSlot :=
  match plan.get? i with
  | some s => plan.set i { s with done := true }
  | none => plan

/-- The responder-side state of the key-exchange runner: the current key
exchange object (by method), whether applying the peer value failed, the
link token (empty chunk when none), the plan, the index of the current
slot, and the completed exchanges in order. -/
structure RespSt where
  ke : Option Nat
  ke_failed : Bool
  link : Chunk
  key_exchanges : List KeSlot
  ke_index : Nat
  kes : List Nat
  deriving DecidableEq, Repr

/-- key_exchange_done: with no current key exchange everything is done;
otherwise the current slot is marked done, the index advanced, the
exchange moved into the completed list, and the result says whether no
further exchange remains. -/
def key_exchange_done (st : RespSt) : Bool × RespSt :=
  match st.ke with
  | none => (true, st)
  | some ke =>
      let st1 := { st with
                    key_exchanges := mark_done st.key_exchanges st.ke_index,
                    ke_index := st.ke_index + 1 }
      let additional := additional_key_exchange_required st1.key_exchanges st1.ke_index
      let st2 := { st1 with kes := st1.kes ++ [ke], ke := none }
      (!additional, st2)

/-- chunk_equals_const: length and every byte equal. -/
def chunk_equals_const (a b : Chunk) : Bool := a == b

/-- process_link: the initiator stores whatever token the responder sent;
the responder compares a received token against the stored one and clears
the stored token on mismatch; a missing notify also clears it. -/
def process_link (initiator : Bool) (stored : Chunk) (received : Option Chunk) : Chunk :=
  match received with
  | some l =>
      if initiator then l
      else if !chunk_equals_const stored l then [] else stored
  | none => []

/-- key_exchange_done_and_install_r: completes the current key exchange;
when exchanges remain and no link token exists yet, the single byte 0x42
becomes the token, and when all are done the token is cleared.  The
payload build then emits the token (when set) as an ADDITIONAL_KEY_EXCHANGE
notify; on build failure a NO_PROPOSAL_CHOSEN notify is added and the
round counts as finished.  When all exchanges are done the CHILD_SA is
installed, turning NOT_FOUND into TS_UNACCEPTABLE and any other failure
into NO_PROPOSAL_CHOSEN.  Returns the new state, the notifies emitted,
and whether the negotiation finished. -/
def key_exchange_done_and_install_r (st : RespSt) (ke_payload_ok : Bool)
    (install : Status) : RespSt × List (NotifyType × Chunk) × Bool :=
  let r := key_exchange_done st
  let all_done := r.1
  let st1 :=
    if all_done then { r.2 with link := [] }
    else if r.2.link.isEmpty then { r.2 with link := [0x42] }
    else r.2
  if !ke_payload_ok then
    (st1, [(NotifyType.NO_PROPOSAL_CHOSEN, [])], true)
  else
    let link_notifies :=
      if st1.link.isEmpty then [] else [(NotifyType.ADDITIONAL_KEY_EXCHANGE, st1.link)]
    if all_done then
      match install with
      | Status.SUCCESS => (st1, link_notifies, true)
      | Status.NOT_FOUND => (st1, link_notifies ++ [(NotifyType.TS_UNACCEPTABLE, [])], true)
      | _ => (st1, link_notifies ++ [(NotifyType.NO_PROPOSAL_CHOSEN, [])], true)
    else
      (st1, link_notifies, false)

/-- Result of a responder IKE_FOLLOWUP_KE build round. -/
structure MultiKeOut where
  st : RespSt
  notifies : List (NotifyType × Chunk)
  status : Status
  deriving DecidableEq, Repr

/-- build_r_multi_ke: a missing key exchange object means broken syntax, a
failed key exchange means no proposal chosen, a missing link token means
the state was not found; all three fail the CHILD_SA with SUCCESS.
Otherwise the round completes through key_exchange_done_and_install_r,
returning SUCCESS when it finished and NEED_MORE when further follow-up
rounds are needed. -/
def build_r_multi_ke (st : RespSt) (ke_payload_ok : Bool) (install : Status) : MultiKeOut :=
  if st.ke = none then
    { st := st, notifies := [(NotifyType.INVALID_SYNTAX, [])], status := Status.SUCCESS }
  else if st.ke_failed then
    { st := st, notifies := [(NotifyType.NO_PROPOSAL_CHOSEN, [])], status := Status.SUCCESS }
  else if st.link.isEmpty then
    { st := st, notifies := [(NotifyType.STATE_NOT_FOUND, [])], status := Status.SUCCESS }
  else
    match key_exchange_done_and_install_r st ke_payload_ok install with
    | (st1, ns, true) => { st := st1, notifies := ns, status := Status.SUCCESS }
    | (st1, ns, false) => { st := st1, notifies := ns, status := Status.NEED_MORE }

/-! ### Concrete instances used by counterexamples and witnesses -/

/-- A selected proposal whose additional key exchanges have a gap:
ADDITIONAL_KEY_EXCHANGE_1 and ADDITIONAL_KEY_EXCHANGE_3 are present,
ADDITIONAL_KEY_EXCHANGE_2 is absent. -/
def gap_proposal : Proposal :=
  { protocol := 3, spi := 0,
    transforms := [(KEY_EXCHANGE_METHOD, 31),
                   (ADDITIONAL_KEY_EXCHANGE_1, 100),
                   (ADDITIONAL_KEY_EXCHANGE_1 + 2, 101)] }

/-- A proposal expecting key-exchange method 19 and nothing else. -/
def expects_19_proposal : Proposal :=
  { protocol := 3, spi := 0, transforms := [(KEY_EXCHANGE_METHOD, 19)] }

/-- An INSTALLED CHILD_SA with a dynamic (zero) reqid. -/
def dup_existing : ChildSaAttrs :=
  { cfg := 1, reqid := 0, mark_in := 0, mark_out := 0,
    if_id_in := 0, if_id_out := 0, label := none,
    state := ChildState.CHILD_INSTALLED }

/-- A CHILD_SA under construction that matches dup_existing except for a
static reqid of 5. -/
def dup_new : ChildSaAttrs :=
  { cfg := 1, reqid := 5, mark_in := 0, mark_out := 0,
    if_id_in := 0, if_id_out := 0, label := none,
    state := ChildState.CHILD_CREATED }

/-- Install-time state of an initiator, non-rekey task. -/
def c1_state : InstallSt :=
  { initiator := true, rekey := false, tfcv3 := true,
    my_nonce := [1], other_nonce := [2], my_spi := 10, other_spi := 20,
    my_cpi := 0, other_cpi := 0, ipcomp := IpcompTransform.IPCOMP_NONE,
    post_hook_ts_empty := false }

/-- A kernel oracle on which every call succeeds. -/
def c1_kernel : Kernel :=
  { derived := some { encr_i := [3], integ_i := [4], encr_r := [5], integ_r := [6] },
    install_in := Status.SUCCESS, install_out := Status.SUCCESS,
    policies := Status.SUCCESS }

/-- Install-time state of a responder, non-rekey task. -/
def c3_state : InstallSt :=
  { initiator := false, rekey := false, tfcv3 := true,
    my_nonce := [2], other_nonce := [1], my_spi := 30, other_spi := 40,
    my_cpi := 0, other_cpi := 0, ipcomp := IpcompTransform.IPCOMP_NONE,
    post_hook_ts_empty := false }

/-- A kernel oracle whose inbound SA install fails while the outbound
install would succeed. -/
def c3_kernel : Kernel :=
  { derived := some { encr_i := [3], integ_i := [4], encr_r := [5], integ_r := [6] },
    install_in := Status.FAILED, install_out := Status.SUCCESS,
    policies := Status.SUCCESS }

/-- The kernel oracle of c3_kernel with a failing key derivation. -/
def c3_kernel_noderive : Kernel :=
  { derived := none, install_in := Status.FAILED, install_out := Status.SUCCESS,
    policies := Status.SUCCESS }

/-- An aborted initiator task that has not retried yet. -/
def c2_aborted_state : TaskSt :=
  { rekey := false, retry := false, aborted := true, ke_method := 0,
    child_state := some ChildState.CHILD_CREATED }

/-- A fresh initiator task: not aborted, not retried. -/
def c2_fresh_state : TaskSt :=
  { rekey := false, retry := false, aborted := false, ke_method := 0,
    child_state := some ChildState.CHILD_CREATED }

/-- A responder entering its first multi-KE round: the primary exchange is
current, an additional one remains, no link token exists yet. -/
def c7_first_round_state : RespSt :=
  { ke := some 31, ke_failed := false, link := [],
    key_exchanges := [{ type := KEY_EXCHANGE_METHOD, method := 31, done := false },
                      { type := ADDITIONAL_KEY_EXCHANGE_1, method := 100, done := false }],
    ke_index := 0, kes := [] }

/-- A responder waiting for a follow-up exchange, holding the link token
0x42. -/
def c7_followup_state : RespSt :=
  { ke := some 100, ke_failed := false, link := [0x42],
    key_exchanges := [{ type := KEY_EXCHANGE_METHOD, method := 31, done := true },
                      { type := ADDITIONAL_KEY_EXCHANGE_1, method := 100, done := false }],
    ke_index := 1, kes := [31] }

/-! ## Helper lemmas -/

/-- memcmp is strictly-below exactly when the length-n byte head of the
first list is lexicographically below that of the second, provided the
first list has at least n bytes. -/
theorem memcmp_lt_iff (n : Nat) (xs ys : Chunk) (h : n ≤ xs.length) :
    memcmp xs ys n = Ordering.lt ↔ lexLt (xs.take n) (ys.take n) = true := by
  induction n generalizing xs ys with
  | zero => simp [memcmp, lexLt]
  | succ n ih =>
    match xs, ys with
    | [], _ => simp at h
    | x :: xs, [] => simp [memcmp, lexLt]
    | x :: xs, y :: ys =>
      simp only [memcmp, List.take_succ_cons, lexLt]
      rcases Nat.lt_trichotomy x y with hlt | heq | hgt
      · simp [hlt, Nat.not_lt.mpr (Nat.le_of_lt hlt), Nat.lt_irrefl]
      · subst heq
        simp only [Nat.lt_irrefl, if_false, beq_self_eq_true, Bool.true_and,
          decide_eq_true_eq]
        rw [ih xs ys (Nat.le_of_succ_le_succ h)]
        simp
      · have hxy : ¬ x < y := Nat.not_lt.mpr (Nat.le_of_lt hgt)
        simp [hxy, hgt, Nat.ne_of_gt hgt]

/-- The initiator flag never changes under set_config. -/
theorem foldl_set_config_initiator (t : ChildCreateTask) (ops : List Nat) :
    (ops.foldl set_config t).initiator = t.initiator := by
  induction ops generalizing t with
  | nil => rfl
  | cons c rest ih => simpa [set_config] using ih { t with config := some c }

/-- A task whose config is set stays set under further set_config calls. -/
theorem foldl_set_config_isSome (t : ChildCreateTask) (ops : List Nat)
    (h : t.config.isSome = true) : ((ops.foldl set_config t).config).isSome = true := by
  induction ops generalizing t with
  | nil => exact h
  | cons c rest ih => exact ih { t with config := some c } rfl

/-- Collecting the present values of f over mapped elements and keeping
only the source element equals filtering the mapped list by presence. -/
theorem filterMap_present_types (l : List Nat) (f : Nat → Option Nat) (g : Nat → Nat) :
    l.filterMap (fun j => (f (g j)).map (fun _ => g j)) =
      (l.map g).filter (fun t => (f t).isSome) := by
  induction l with
  | nil => rfl
  | cons x xs ih =>
    simp only [List.filterMap_cons, List.map_cons, List.filter_cons]
    cases hfx : f (g x) with
    | none => simp [ih]
    | some a => simp [ih]

/-- child_sa_equals, stated over propositional equality of the fields. -/
theorem child_sa_equals_iff (a b : ChildSaAttrs) :
    child_sa_equals a b = true ↔
      (a.cfg = b.cfg ∧ a.mark_in = b.mark_in ∧ a.mark_out = b.mark_out ∧
       a.if_id_in = b.if_id_in ∧ a.if_id_out = b.if_id_out ∧ a.label = b.label ∧
       (a.reqid = 0 ∨ b.reqid = 0 ∨ a.reqid = b.reqid)) := by
  simp only [child_sa_equals, sec_labels_equal, Bool.and_eq_true, Bool.or_eq_true,
    beq_iff_eq]
  tauto

/-- key_exchange_done never touches the link token. -/
theorem key_exchange_done_link (st : RespSt) : (key_exchange_done st).2.link = st.link := by
  cases h : st.ke <;> simp [key_exchange_done, h]

/-- key_exchange_done_and_install_r never emits a STATE_NOT_FOUND notify. -/
theorem ke_done_install_r_no_state_not_found (st : RespSt) (kp : Bool) (inst : Status)
    (d : Chunk) :
    (NotifyType.STATE_NOT_FOUND, d) ∉ (key_exchange_done_and_install_r st kp inst).2.1 := by
  simp only [key_exchange_done_and_install_r]
  cases kp <;> cases hdone : (key_exchange_done st).1 <;> cases inst <;> simp

/-! ## Claim theorems -/

/-- C4 counterexample: my_nonce = [0] and other_nonce = [0, 1] tie on the
compared one-byte head, yet get_lower_nonce returns other_nonce, not
my_nonce as the claim states. -/
theorem c4_counterexample :
    memcmp ([0] : Chunk) ([0, 1] : Chunk)
        (min (List.length ([0] : Chunk)) (List.length ([0, 1] : Chunk))) = Ordering.eq ∧
    get_lower_nonce ([0] : Chunk) ([0, 1] : Chunk) = ([0, 1] : Chunk) := by decide

/-- C4 (amended): get_lower_nonce returns my_nonce exactly when its byte
head of length min(len_my, len_other) is lexicographically smaller than
the peer head, and other_nonce otherwise; in particular a tie of the
compared heads returns other_nonce. -/
theorem c4_lower_nonce :
    ∀ my_nonce other_nonce : Chunk,
      get_lower_nonce my_nonce other_nonce =
        if lexLt (my_nonce.take (min my_nonce.length other_nonce.length))
                 (other_nonce.take (min my_nonce.length other_nonce.length)) = true then
          my_nonce
        else
          other_nonce := by
  intro my_nonce other_nonce
  unfold get_lower_nonce
  rw [if_congr (memcmp_lt_iff (min my_nonce.length other_nonce.length) my_nonce other_nonce
        (Nat.min_le_left _ _)) rfl rfl]

/-- C8: the initiator fails the CHILD_SA when the peer accepted IPComp we
did not propose, or chose a transform different from the one we proposed;
it silently disables IPComp and continues when we proposed but the peer
did not accept. -/
theorem c8_ipcomp_symmetry (p r : IpcompTransform) :
    (p = IpcompTransform.IPCOMP_NONE → r ≠ IpcompTransform.IPCOMP_NONE →
      process_i_ipcomp p r = IpcompCheck.fail) ∧
    (p ≠ IpcompTransform.IPCOMP_NONE → r ≠ IpcompTransform.IPCOMP_NONE → p ≠ r →
      process_i_ipcomp p r = IpcompCheck.fail) ∧
    (p ≠ IpcompTransform.IPCOMP_NONE → r = IpcompTransform.IPCOMP_NONE →
      process_i_ipcomp p r = IpcompCheck.disabled) := by
  refine ⟨?_, ?_, ?_⟩
  · intro hp hr
    simp [process_i_ipcomp, hp, hr]
  · intro hp hr hpr
    simp [process_i_ipcomp, hp, hr, hpr]
  · intro hp hr
    simp [process_i_ipcomp, hp, hr]

/-- C8 witness: concrete transforms exercising the failing and the
disabling branch. -/
theorem c8_witness :
    process_i_ipcomp IpcompTransform.IPCOMP_NONE IpcompTransform.IPCOMP_DEFLATE =
      IpcompCheck.fail ∧
    process_i_ipcomp IpcompTransform.IPCOMP_DEFLATE IpcompTransform.IPCOMP_NONE =
      IpcompCheck.disabled :=
  ⟨(c8_ipcomp_symmetry IpcompTransform.IPCOMP_NONE IpcompTransform.IPCOMP_DEFLATE).1
      rfl (by decide),
   (c8_ipcomp_symmetry IpcompTransform.IPCOMP_DEFLATE IpcompTransform.IPCOMP_NONE).2.2
      (by decide) rfl⟩

/-- C10: a task created without a configuration returns NULL from
get_config no matter how often set_config installed one, while a task
created with a configuration always returns a non-NULL configuration. -/
theorem c10_get_config (ops : List Nat) (c : Nat) :
    get_config (ops.foldl set_config (child_create_create none)) = none ∧
    (get_config (ops.foldl set_config (child_create_create (some c)))).isSome = true := by
  constructor
  · have h : (ops.foldl set_config (child_create_create none)).initiator = false := by
      rw [foldl_set_config_initiator]; rfl
    simp [get_config, h]
  · have h1 : (ops.foldl set_config (child_create_create (some c))).initiator = true := by
      rw [foldl_set_config_initiator]; rfl
    have h2 := foldl_set_config_isSome (child_create_create (some c)) ops rfl
    simp [get_config, h1, h2]

/-- C5 counterexample: on a proposal with ADDITIONAL_KEY_EXCHANGE_1
present, _2 absent and _3 present, determine_key_exchanges does not stop
at the absent transform and rejects nothing: the slot after
ADDITIONAL_KEY_EXCHANGE_1 holds the ADDITIONAL_KEY_EXCHANGE_3 transform. -/
theorem c5_counterexample :
    (determine_key_exchanges gap_proposal).map (fun s => s.type) =
      [KEY_EXCHANGE_METHOD, ADDITIONAL_KEY_EXCHANGE_1, ADDITIONAL_KEY_EXCHANGE_1 + 2] := by
  decide

/-- C5 (amended): the plan is empty without a KEY_EXCHANGE_METHOD
transform; otherwise slot 0 holds KEY_EXCHANGE_METHOD and the following
slots hold exactly the present ADDITIONAL_KEY_EXCHANGE_1..7 transforms,
densely packed in transform-type order with absent transforms skipped,
each slot carrying the proposal method of its type; gaps are not
rejected. -/
theorem c5_plan_layout (p : Proposal) :
    (p.get_algorithm KEY_EXCHANGE_METHOD = none → determine_key_exchanges p = []) ∧
    (∀ alg, p.get_algorithm KEY_EXCHANGE_METHOD = some alg →
      (determine_key_exchanges p).map (fun s => s.type) =
        KEY_EXCHANGE_METHOD ::
          ((List.range 7).map (fun j => ADDITIONAL_KEY_EXCHANGE_1 + j)).filter
            (fun t => (p.get_algorithm t).isSome) ∧
      ∀ s ∈ determine_key_exchanges p,
        p.get_algorithm s.type = some s.method ∧ s.done = false) := by
  constructor
  · intro h
    simp [determine_key_exchanges, h]
  · intro alg h
    constructor
    · simp only [determine_key_exchanges, h, List.map_cons]
      congr 1
      rw [List.map_filterMap]
      simp only [Option.map_map, Function.comp]
      exact filterMap_present_types (List.range 7) p.get_algorithm
        (fun j => ADDITIONAL_KEY_EXCHANGE_1 + j)
    · intro s hs
      simp only [determine_key_exchanges, h, List.mem_cons, List.mem_filterMap] at hs
      rcases hs with hs | ⟨j, _, hjs⟩
      · subst hs
        exact ⟨h, rfl⟩
      · cases ha : p.get_algorithm (ADDITIONAL_KEY_EXCHANGE_1 + j) with
        | none => rw [ha] at hjs; simp at hjs
        | some a =>
            rw [ha] at hjs
            simp only [Option.map_some', Option.some_inj] at hjs
            rw [← hjs]
            exact ⟨ha, rfl⟩

/-- C5 witness: the plan layout evaluated on the gapped proposal. -/
theorem c5_witness :
    (determine_key_exchanges gap_proposal).map (fun s => s.type) =
      KEY_EXCHANGE_METHOD ::
        ((List.range 7).map (fun j => ADDITIONAL_KEY_EXCHANGE_1 + j)).filter
          (fun t => (gap_proposal.get_algorithm t).isSome) ∧
    ∀ s ∈ determine_key_exchanges gap_proposal,
      gap_proposal.get_algorithm s.type = some s.method ∧ s.done = false :=
  (c5_plan_layout gap_proposal).2 31 (by decide)

/-- C9: when the peer method is not a transform of the selected proposal
but the proposal carries some KEY_EXCHANGE_METHOD, the responder build
emits an INVALID_KE_PAYLOAD notify whose data is the expected method as a
big-endian 16-bit integer and ends the exchange with SUCCESS. -/
theorem c9_invalid_ke_payload (p : Proposal) (m : Nat) (kp : Bool) (alg : Nat)
    (h1 : p.has_transform KEY_EXCHANGE_METHOD m = false)
    (h2 : p.get_algorithm KEY_EXCHANGE_METHOD = some alg) :
    build_r_ke_step p m kp =
      (some Status.SUCCESS,
       [(NotifyType.INVALID_KE_PAYLOAD, [alg / 256 % 256, alg % 256])]) := by
  simp [build_r_ke_step, check_ke_method_r, check_ke_method, h1, h2, htons16]

/-- C9 witness: a peer asking for method 31 against a proposal expecting
method 19 gets INVALID_KE_PAYLOAD with data 0x00 0x13. -/
theorem c9_witness :
    build_r_ke_step expects_19_proposal 31 true =
      (some Status.SUCCESS, [(NotifyType.INVALID_KE_PAYLOAD, [0, 19])]) :=
  c9_invalid_ke_payload expects_19_proposal 31 true 19 (by decide) (by decide)

/-- C6 counterexample: an INSTALLED CHILD_SA with reqid 0 counts as a
duplicate of a new CHILD_SA with static reqid 5, although the claim
criterion (both reqids zero, or reqids equal) rejects the pair. -/
theorem c6_counterexample :
    check_for_duplicate dup_new [dup_existing] = true ∧
    spec_duplicate_criterion dup_existing dup_new = false := by decide

/-- C6 (amended): an existing CHILD_SA counts as a duplicate iff it is
INSTALLED with equal config, marks, interface IDs and labels, and either
side has a zero reqid or the reqids are equal; a found duplicate on a
non-rekey CREATE_CHILD_SA first build suppresses the wire message by
setting the exchange type undefined and returning SUCCESS. -/
theorem c6_duplicate_check (t : ChildSaAttrs) (l : List ChildSaAttrs) (g : Bool) :
    (check_for_duplicate t l = true ↔
      ∃ c ∈ l, c.state = ChildState.CHILD_INSTALLED ∧
        (c.cfg = t.cfg ∧ c.mark_in = t.mark_in ∧ c.mark_out = t.mark_out ∧
         c.if_id_in = t.if_id_in ∧ c.if_id_out = t.if_id_out ∧ c.label = t.label ∧
         (c.reqid = 0 ∨ t.reqid = 0 ∨ c.reqid = t.reqid))) ∧
    build_i_duplicate_guard false Exchange.CREATE_CHILD_SA g true =
      some (Exchange.EXCHANGE_TYPE_UNDEFINED, Status.SUCCESS) := by
  constructor
  · simp only [check_for_duplicate, List.any_eq_true, Bool.and_eq_true, beq_iff_eq,
      child_sa_equals_iff]
  · simp [build_i_duplicate_guard]

/-- C1: on every successful install, the key derivation receives the
initiator nonce first and the responder nonce second regardless of role,
the inbound SA is installed with the keys derived for the peer direction
and my_spi, and the outbound SA is installed (or registered during a
rekeying) with the keys derived for our direction and other_spi. -/
theorem c1_install_symmetry (st : InstallSt) (k : Kernel)
    (h : (install_child_sa st k).status = Status.SUCCESS) :
    ∃ keys, k.derived = some keys ∧
      (install_child_sa st k).ops =
        [KernelOp.deriveKeys (initiator_nonce st) (responder_nonce st),
         KernelOp.installSA (keys.peer_encr st.initiator) (keys.peer_integ st.initiator)
           st.my_spi (effective_my_cpi st) st.initiator true st.tfcv3,
         (if st.rekey then
            KernelOp.registerOutbound (keys.own_encr st.initiator)
              (keys.own_integ st.initiator)
              st.other_spi (effective_other_cpi st) st.initiator st.tfcv3
          else
            KernelOp.installSA (keys.own_encr st.initiator) (keys.own_integ st.initiator)
              st.other_spi (effective_other_cpi st) st.initiator false st.tfcv3),
         KernelOp.installPolicies] := by
  by_cases hpost : (!st.initiator && st.post_hook_ts_empty) = true
  · exfalso
    simp [install_child_sa, hpost] at h
  · cases hD : k.derived with
    | none =>
        exfalso
        simp [install_child_sa, hpost, hD] at h
    | some keys =>
        by_cases hio : k.install_in ≠ Status.SUCCESS ∨ k.install_out ≠ Status.SUCCESS
        · exfalso
          simp only [install_child_sa, hpost, hD] at h
          simp [hio] at h
        · by_cases hpol : k.policies ≠ Status.SUCCESS
          · exfalso
            simp only [install_child_sa, hpost, hD] at h
            simp [hio, hpol] at h
          · refine ⟨keys, rfl, ?_⟩
            simp only [install_child_sa, hpost, hD]
            cases hI : st.initiator <;> cases hR : st.rekey <;>
              simp [hio, hpol, initiator_nonce, responder_nonce,
                DerivedKeys.peer_encr, DerivedKeys.peer_integ,
                DerivedKeys.own_encr, DerivedKeys.own_integ,
                effective_my_cpi, effective_other_cpi, hI, hR]

/-- C1 witness: a successful initiator install with concrete nonces, SPIs
and keys. -/
theorem c1_install_symmetry_witness :
    (install_child_sa c1_state c1_kernel).status = Status.SUCCESS ∧
    ∃ keys, c1_kernel.derived = some keys ∧
      (install_child_sa c1_state c1_kernel).ops =
        [KernelOp.deriveKeys (initiator_nonce c1_state) (responder_nonce c1_state),
         KernelOp.installSA (keys.peer_encr c1_state.initiator)
           (keys.peer_integ c1_state.initiator)
           c1_state.my_spi (effective_my_cpi c1_state) c1_state.initiator true
           c1_state.tfcv3,
         (if c1_state.rekey then
            KernelOp.registerOutbound (keys.own_encr c1_state.initiator)
              (keys.own_integ c1_state.initiator)
              c1_state.other_spi (effective_other_cpi c1_state) c1_state.initiator
              c1_state.tfcv3
          else
            KernelOp.installSA (keys.own_encr c1_state.initiator)
              (keys.own_integ c1_state.initiator)
              c1_state.other_spi (effective_other_cpi c1_state) c1_state.initiator false
              c1_state.tfcv3),
         KernelOp.installPolicies] :=
  ⟨by decide, c1_install_symmetry c1_state c1_kernel (by decide)⟩

/-- C3 counterexample: with a kernel whose inbound install fails, the
trace of install_child_sa still contains an outbound install call, so the
outbound SA is not never-installed after an inbound failure. -/
theorem c3_counterexample :
    c3_kernel.install_in = Status.FAILED ∧
    (install_child_sa c3_state c3_kernel).ops.any KernelOp.isOutbound = true := by
  decide

/-- C3 (amended): no SA at all is installed when key derivation fails;
the outbound install is attempted regardless of the inbound result, but
an inbound failure makes install_child_sa return a non-SUCCESS status and
the CHILD_SA is not established. -/
theorem c3_outbound_guard (st : InstallSt) (k : Kernel) :
    (k.derived = none →
      (install_child_sa st k).ops.all (fun op => !op.isOutbound) = true) ∧
    (k.install_in ≠ Status.SUCCESS →
      (install_child_sa st k).status ≠ Status.SUCCESS ∧
      (install_child_sa st k).established = false) := by
  constructor
  · intro hD
    simp only [install_child_sa, hD]
    split
    · simp
    · simp [KernelOp.isOutbound]
  · intro hin
    simp only [install_child_sa]
    split
    · exact ⟨by simp, rfl⟩
    · cases hD : k.derived with
      | none => simp
      | some keys => simp [hin]

/-- C3 witness: the guard evaluated on the concrete responder state, for a
kernel without derived keys and for one with a failing inbound install. -/
theorem c3_outbound_guard_witness :
    (install_child_sa c3_state c3_kernel_noderive).ops.all
        (fun op => !op.isOutbound) = true ∧
    ((install_child_sa c3_state c3_kernel).status ≠ Status.SUCCESS ∧
     (install_child_sa c3_state c3_kernel).established = false) :=
  ⟨(c3_outbound_guard c3_state c3_kernel_noderive).1 rfl,
   (c3_outbound_guard c3_state c3_kernel).2 (by decide)⟩

/-- C2 counterexample: an aborted task that has never retried receives
INVALID_KE_PAYLOAD and returns SUCCESS without reading the method,
setting the retry flag, or migrating, against the claim that every
not-yet-retried task retries with NEED_MORE. -/
theorem c2_counterexample :
    c2_aborted_state.retry = false ∧
    scan_notifies Exchange.CREATE_CHILD_SA c2_aborted_state
        [{ ntype := NotifyType.INVALID_KE_PAYLOAD, data := [0, 19] }] =
      (c2_aborted_state, [], some Status.SUCCESS) := by decide

/-- C2 (amended): on INVALID_KE_PAYLOAD with 16-bit data, a task that is
not aborted and has not retried reads the suggested method, sets retry,
records the method (surviving the migration), marks the CHILD_SA
RETRYING, migrates, and returns NEED_MORE; a task that already retried
abandons the CHILD_SA and returns SUCCESS, so at most one retry happens. -/
theorem c2_invalid_ke_retry (st : TaskSt) (ex : Exchange) (d : Chunk)
    (hab : st.aborted = false) (hd : d.length = 2) :
    (st.retry = false →
      scan_notifies ex st [{ ntype := NotifyType.INVALID_KE_PAYLOAD, data := d }] =
        ({ st with retry := true, ke_method := untoh16 d, child_state := none },
         [Action.setChildState ChildState.CHILD_RETRYING, Action.migrate],
         some Status.NEED_MORE)) ∧
    (st.retry = true →
      scan_notifies ex st [{ ntype := NotifyType.INVALID_KE_PAYLOAD, data := d }] =
        (st, [Action.childSaFailed], some Status.SUCCESS)) := by
  constructor <;> intro hr <;>
    simp [scan_notifies, process_i_notify, hab, hr, hd, migrate_task,
      handle_child_sa_failure]

/-- C2 witness: a fresh task retrying on notify data 0x00 0x13. -/
theorem c2_invalid_ke_retry_witness :
    scan_notifies Exchange.CREATE_CHILD_SA c2_fresh_state
        [{ ntype := NotifyType.INVALID_KE_PAYLOAD, data := [0, 19] }] =
      ({ c2_fresh_state with retry := true, ke_method := untoh16 [0, 19],
                             child_state := none },
       [Action.setChildState ChildState.CHILD_RETRYING, Action.migrate],
       some Status.NEED_MORE) :=
  (c2_invalid_ke_retry c2_fresh_state Exchange.CREATE_CHILD_SA [0, 19] rfl rfl).1 rfl

/-- C7: when exchanges remain after the current round and no link token
exists, the responder stores the token 0x42 and emits it in an
ADDITIONAL_KEY_EXCHANGE notify; a follow-up whose token is missing or
differs from the stored token clears it, and the next responder build
emits STATE_NOT_FOUND and fails the CHILD_SA with SUCCESS; a follow-up
carrying the stored token byte-for-byte keeps it, and STATE_NOT_FOUND is
never emitted. -/
theorem c7_link_token (st : RespSt) (t : Option Chunk) (kp : Bool) (inst : Status) :
    (st.link = [] → st.ke.isSome = true → (key_exchange_done st).1 = false → kp = true →
      (key_exchange_done_and_install_r st kp inst).1.link = [0x42] ∧
      (NotifyType.ADDITIONAL_KEY_EXCHANGE, ([0x42] : Chunk)) ∈
        (key_exchange_done_and_install_r st kp inst).2.1 ∧
      (key_exchange_done_and_install_r st kp inst).2.2 = false) ∧
    (st.link ≠ [] → st.ke.isSome = true → st.ke_failed = false → t ≠ some st.link →
      build_r_multi_ke { st with link := process_link false st.link t } kp inst =
        { st := { st with link := [] },
          notifies := [(NotifyType.STATE_NOT_FOUND, [])],
          status := Status.SUCCESS }) ∧
    (st.link ≠ [] →
      process_link false st.link (some st.link) = st.link ∧
      ∀ d, (NotifyType.STATE_NOT_FOUND, d) ∉
        (build_r_multi_ke { st with link := process_link false st.link (some st.link) }
          kp inst).notifies) := by
  refine ⟨?_, ?_, ?_⟩
  · intro h1 h2 h3 h4
    subst h4
    have hl := key_exchange_done_link st
    rw [h1] at hl
    simp only [key_exchange_done_and_install_r, h3, hl]
    simp
  · intro h1 h2 h3 h4
    have hcl : process_link false st.link t = [] := by
      cases t with
      | none => rfl
      | some l =>
          have hne : st.link ≠ l := fun he => h4 (by rw [he])
          simp [process_link, chunk_equals_const, hne]
    rw [hcl]
    have hke : ¬ st.ke = none := by
      cases hk : st.ke with
      | none => rw [hk] at h2; simp at h2
      | some v => simp
    simp [build_r_multi_ke, hke, h3]
  · intro h1
    have hcl : process_link false st.link (some st.link) = st.link := by
      simp [process_link, chunk_equals_const]
    rw [hcl]
    refine ⟨rfl, ?_⟩
    intro d
    have heta : { st with link := st.link } = st := rfl
    rw [heta]
    simp only [build_r_multi_ke]
    split
    · simp
    · split
      · simp
      · split
        · rename_i hemp
          exact absurd (List.isEmpty_iff.mp hemp) h1
        · rcases hk : key_exchange_done_and_install_r st kp inst with ⟨st1, ns, fin⟩
          have := ke_done_install_r_no_state_not_found st kp inst d
          rw [hk] at this
          cases fin <;> simpa using this

/-- C7 witness: the first multi-KE round stores and emits 0x42, and a
follow-up with a wrong token yields STATE_NOT_FOUND. -/
theorem c7_link_token_witness :
    ((key_exchange_done_and_install_r c7_first_round_state true Status.SUCCESS).1.link =
        [0x42] ∧
      (NotifyType.ADDITIONAL_KEY_EXCHANGE, ([0x42] : Chunk)) ∈
        (key_exchange_done_and_install_r c7_first_round_state true Status.SUCCESS).2.1 ∧
      (key_exchange_done_and_install_r c7_first_round_state true Status.SUCCESS).2.2 =
        false) ∧
    build_r_multi_ke
        { c7_followup_state with
            link := process_link false c7_followup_state.link (some [7]) }
        true Status.SUCCESS =
      { st := { c7_followup_state with link := [] },
        notifies := [(NotifyType.STATE_NOT_FOUND, [])],
        status := Status.SUCCESS } :=
  ⟨(c7_link_token c7_first_round_state none true Status.SUCCESS).1 rfl rfl (by decide) rfl,
   (c7_link_token c7_followup_state (some [7]) true Status.SUCCESS).2.1 (by decide) rfl rfl
     (by decide)⟩

end ChildCreate
